import Mathlib

/-!
Verification of the json-log-formatter transformation engine.

The development shallowly embeds `src/log_transformer.rs`: JSON values are a
Lean inductive, the per-line pipeline `LogTransformer::transform_and_print`
becomes a pure function from the parse result of one input line to an
`Outcome` (a dropped record, a verbatim passthrough line, a rendered list of
colored segments, or a process abort via `panic!`/`unwrap`).  External
collaborators — the `jql` query walker, `chrono` local-time formatting, and
Rust's `Debug` rendering of arrays and maps — are uninterpreted parameters
bundled in `Ext`.
-/

namespace JLF

/-- Model of `serde_json::Number`: it carries its canonical decimal rendering
(what `Number::to_string()` produces).  Every number variant of `serde_json`
(i64, u64, f64) converts successfully through `as_f64`, so presence of a
number is all the timestamp path observes. -/
structure JNum where
  text : String
deriving DecidableEq, Repr

/-- Model of `serde_json::Value`.  Objects keep their key/value pairs as an
ordered association list (iteration order of the underlying map). -/
inductive JValue where
  | null
  | bool (b : Bool)
  | num (n : JNum)
  | str (s : String)
  | arr (elems : List JValue)
  | obj (fields : List (String × JValue))

/-- `Value::as_object`. -/
def JValue.asObject : JValue → Option (List (String × JValue))
  | .obj fs => some fs
  | _ => none

/-- `Value::as_str`. -/
def JValue.asStr : JValue → Option String
  | .str s => some s
  | _ => none

/-- `Value::as_f64`: some for every number, none otherwise. -/
def JValue.asF64 : JValue → Option JNum
  | .num n => some n
  | _ => none

/-- `Map::get`: first binding of the key in the association list. -/
def getField (fields : List (String × JValue)) (k : String) : Option JValue :=
  (fields.find? (fun kv => kv.1 == k)).map (fun kv => kv.2)

/-- Boolean infix test on character lists. -/
def infixOf (pat : List Char) : List Char → Bool
  | [] => pat.isEmpty
  | a :: t => pat.isPrefixOf (a :: t) || infixOf pat t

/-- Rust `str::contains` for a literal pattern. -/
def containsSubstring (hay pat : String) : Bool :=
  infixOf pat.data hay.data

/-- Rust `str::trim`: strip leading and trailing whitespace. -/
def rustTrim (s : String) : String :=
  String.mk
    (((s.data.dropWhile Char.isWhitespace).reverse.dropWhile
        Char.isWhitespace).reverse)

/-- Rust `str::to_lowercase` (ASCII range, which covers every
case-sensitive character of the level table). -/
def rustLower (s : String) : String :=
  String.mk (s.data.map Char.toLower)

/-- Terminal colors used by the transformer (`termcolor::Color`). -/
inductive TColor where
  | black
  | blue
  | yellow
  | red
  | magenta
  | green
deriving DecidableEq, Repr

/-- The raw CLI options consumed by `LogTransformer::new` (struct `Config`
in `log_transformer.rs`, with clap defaults already applied to the plain
`String` fields). -/
structure Config where
  message_field_name : String
  level_field_name : String
  exclude_fields : Option (List String)
  separator : String
  timestamp_field_name : String
  hide_extra_fields : Bool
  filter_levels : Option (List String)
  spacing : Int
  disable_colors : Bool
  hide_non_json : Bool
  multiline_fields : Bool
  jql : Option String
  jql_filter : Option String

/-- The resolved transformer state (struct `LogTransformer`). -/
structure LogTransformer where
  message_field : String
  level_field : String
  timestamp_field : String
  excluded_fields : List String
  separator : String
  hide_extra_fields : Bool
  filter_levels : List String
  disable_colors : Bool
  spacing : Int
  hide_non_json : Bool
  multiline_fields : Bool
  jql : Option String
  jql_filter : Option String

/-- `LogTransformer::new`: sets from option lists, then the three configured
field names are inserted into `excluded_fields`. -/
def LogTransformer.new (c : Config) : LogTransformer where
  message_field := c.message_field_name
  level_field := c.level_field_name
  timestamp_field := c.timestamp_field_name
  excluded_fields :=
    (match c.exclude_fields with
     | some excluded => excluded
     | none => []) ++
    [c.message_field_name, c.level_field_name, c.timestamp_field_name]
  separator := c.separator
  hide_extra_fields := c.hide_extra_fields
  filter_levels :=
    match c.filter_levels with
    | some filtered => filtered
    | none => []
  disable_colors := c.disable_colors
  spacing := c.spacing
  hide_non_json := c.hide_non_json
  multiline_fields := c.multiline_fields
  jql := c.jql
  jql_filter := c.jql_filter

/-- The external collaborators of the transformer, uninterpreted:
`walker q v` is `jql::walker(&v, Some(q))`; `fmtTs` is the chrono
local-time rendering of the timestamp; `dbgArr`/`dbgObj` are Rust's
`format!("(debug)", _)` on arrays and maps. -/
structure Ext where
  walker : JValue → String → Except String JValue
  fmtTs : JNum → String
  dbgArr : List JValue → String
  dbgObj : List (String × JValue) → String

/-- What one call of `transform_and_print` does, observably. -/
inductive Outcome where
  | fatal (msg : String)
  | dropped
  | passthrough (line : String)
  | rendered (segs : List (TColor × String))
deriving DecidableEq, Repr

/-- Log messages longer than this threshold have the extra fields put on a
separate line (`MULTILINE_MESSAGE_THRESHOLD`). -/
def MULTILINE_MESSAGE_THRESHOLD : Nat := 120

/-- Extra fields longer than this threshold are put on their own line
(`MULTILINE_FIELD_THRESHOLD`). -/
def MULTILINE_FIELD_THRESHOLD : Nat := 120

/-- The color chosen for the level segment, from the `match` on
`level.trim().to_lowercase()` in `transform_and_print`. -/
def levelColor (level : String) : TColor :=
  match rustLower (rustTrim level) with
  | "trace" | "debug" => .black
  | "info" | "notice" => .blue
  | "warning" => .yellow
  | "error" | "err" | "critical" | "crit" | "fatal"
  | "emerg" | "emergency" | "alert" => .red
  | _ => .black

/-- Textual rendering of one extra-field value (the `formatted_value`
match in `transform_and_print`). -/
def formatValue (ext : Ext) : JValue → String
  | .null => "NULL"
  | .bool true => "true"
  | .bool false => "false"
  | .num n => n.text
  | .str s => s
  | .arr a => ext.dbgArr a
  | .obj o => ext.dbgObj o

/-- Segments written for one already-formatted extra field `(k, v)`.  Bare
`write!` calls (the newline and indent in multiline mode) use the color most
recently set, which is black at every such point. -/
def fieldSegs (cfg : LogTransformer) (k v : String) : List (TColor × String) :=
  if cfg.multiline_fields then
    [(.black, "\n"), (.black, "  "), (.green, k)] ++
    (if MULTILINE_FIELD_THRESHOLD < v.utf8ByteSize ∨ v.data.contains '\n' then
      [(.black, ":\n"), (.black, v), (.black, "\n")]
    else
      [(.black, "="), (.black, v)])
  else
    [(.black, " " ++ cfg.separator ++ " "), (.green, k), (.black, "="),
     (.black, v)]

/-- Segments written before the extra-field block: optional timestamp,
level tag, message, and the wrap newline for long messages. -/
def headerSegs (cfg : LogTransformer) (ext : Ext) (time : Option JNum)
    (level message : String) : List (TColor × String) :=
  (match time with
   | some t => [(.magenta, "[" ++ ext.fmtTs t ++ "]")]
   | none => []) ++
  [(levelColor level, "[" ++ level ++ "] "), (.black, message)] ++
  (if MULTILINE_MESSAGE_THRESHOLD < message.utf8ByteSize ∧
      cfg.multiline_fields = false then
    [(.black, "\n")]
  else
    [])

/-- The formatted extra fields of the (possibly query-reshaped) object:
keys in `excluded_fields` are filtered out, values go through
`formatValue`. -/
def extraFields (cfg : LogTransformer) (ext : Ext)
    (fields : List (String × JValue)) : List (String × String) :=
  (fields.filter (fun kv => !cfg.excluded_fields.contains kv.1)).map
    (fun kv => (kv.1, formatValue ext kv.2))

/-- Segments written for the whole extra-field block. -/
def extraSegs (cfg : LogTransformer) (ext : Ext)
    (fields : List (String × JValue)) : List (TColor × String) :=
  (extraFields cfg ext fields).flatMap (fun kv => fieldSegs cfg kv.1 kv.2)

/-- Segments written after the record body: the terminating newline plus
`spacing` blank lines (the `for _ in 0..spacing` loop; an `i64` range is
empty when `spacing` is not positive). -/
def tailSegs (cfg : LogTransformer) : List (TColor × String) :=
  (TColor.black, "\n") :: List.replicate cfg.spacing.toNat (TColor.black, "\n")

/-- The panic message of `Option::unwrap` on `None`. -/
def unwrapMsg : String := "called Option::unwrap() on a None value"

/-- The select-query half of the extra-field block (lines 194-271 of
`log_transformer.rs`): run `jql` if configured, reshape or drop or panic on
its result, then render the surviving fields after `head`. -/
def afterGate (cfg : LogTransformer) (ext : Ext) (val : JValue)
    (head : List (TColor × String)) : Outcome :=
  let vvOut : Outcome ⊕ JValue :=
    match cfg.jql with
    | some query =>
      match ext.walker val query with
      | .ok qr =>
        match qr with
        | .obj _ => .inr qr
        | _ => .inr (.obj [("_jlf_inner", qr)])
      | .error why =>
        if why = "Empty group" then
          .inl .dropped
        else if containsSubstring why "not found on the parent element" then
          .inl .dropped
        else
          .inl (.fatal why)
    | none => .inr val
  match vvOut with
  | .inl o => o
  | .inr vv =>
    match vv.asObject with
    | none => .fatal unwrapMsg
    | some fs => .rendered (head ++ extraSegs cfg ext fs ++ tailSegs cfg)

/-- The gate-query half of the extra-field block (lines 183-192): any
evaluation failure of `jql_filter` discards the record; success falls
through to the select query. -/
def gateAndRender (cfg : LogTransformer) (ext : Ext) (val : JValue)
    (head : List (TColor × String)) : Outcome :=
  match cfg.jql_filter with
  | some query =>
    match ext.walker val query with
    | .error _ => .dropped
    | .ok _ => afterGate cfg ext val head
  | none => afterGate cfg ext val head

/-- One call of `LogTransformer::transform_and_print`, with the
`serde_json::from_str` result of the line passed in as `parsed`.  Field
lookups call `Option::unwrap`, so an absent field is a panic (`.fatal`);
the level filter runs after the message and level lookups and before the
timestamp lookup. -/
def transformAndPrint (cfg : LogTransformer) (ext : Ext)
    (parsed : Except Unit JValue) (line : String) : Outcome :=
  match parsed with
  | .error _ =>
    if cfg.hide_non_json then .dropped else .passthrough line
  | .ok val =>
    match val.asObject with
    | none =>
      if cfg.hide_non_json then .dropped else .passthrough line
    | some obj =>
      match getField obj cfg.message_field with
      | none => .fatal unwrapMsg
      | some mv =>
        let message := mv.asStr.getD "???"
        match getField obj cfg.level_field with
        | none => .fatal unwrapMsg
        | some lv =>
          let level := lv.asStr.getD "???"
          if cfg.filter_levels ≠ [] ∧ cfg.filter_levels.contains level = false
          then
            .dropped
          else
            match getField obj cfg.timestamp_field with
            | none => .fatal unwrapMsg
            | some tv =>
              let head := headerSegs cfg ext tv.asF64 level message
              if cfg.hide_extra_fields then
                .rendered (head ++ tailSegs cfg)
              else
                gateAndRender cfg ext val head

/-- The clap `default_value` attributes of `Config`, with the optional
fields absent. -/
def Config.defaults : Config where
  message_field_name := "msg"
  level_field_name := "level"
  exclude_fields := none
  separator := "|"
  timestamp_field_name := "ts"
  hide_extra_fields := false
  filter_levels := none
  spacing := 0
  disable_colors := false
  hide_non_json := false
  multiline_fields := false
  jql := none
  jql_filter := none

/-- A concrete instantiation of the external collaborators, used to run the
pipeline on closed inputs. -/
def extK : Ext where
  walker := fun _ _ => Except.error "Empty group"
  fmtTs := fun n => n.text
  dbgArr := fun _ => "ARR"
  dbgObj := fun _ => "OBJ"

/-- Transcription of the specification wording for the level color: a fixed
case-insensitive mapping applied directly to the extracted level string
(no trimming is mentioned by the specification). -/
def specLevelColor (level : String) : TColor :=
  match rustLower level with
  | "trace" | "debug" => .black
  | "info" | "notice" => .blue
  | "warning" => .yellow
  | "error" | "err" | "critical" | "crit" | "fatal"
  | "emerg" | "emergency" | "alert" => .red
  | _ => .black

/-- Transcription of the specification wording for extra-field value
formatting: Null to the text NULL, booleans to true/false, a number to its
canonical decimal text, a string verbatim, arrays and objects to the
debug-style rendering of the structure. -/
def specFormatValue (ext : Ext) : JValue → String
  | .null => "NULL"
  | .bool b => if b then "true" else "false"
  | .num n => n.text
  | .str s => s
  | .arr a => ext.dbgArr a
  | .obj o => ext.dbgObj o

/-- A minimal record carrying the three default fields. -/
def recBasic : JValue :=
  .obj [("msg", .str "m"), ("level", .str "info"), ("ts", .num ⟨"1"⟩)]

/-- The default transformer (all clap defaults). -/
def cfgDefault : LogTransformer := LogTransformer.new Config.defaults

/-- A walker failing with a syntax-style error, i.e. anything other than
the two no-match outcomes. -/
def extSyntaxErr : Ext :=
  { extK with walker := fun _ _ => .error "Unable to parse the selector" }

/-- Unfolding of the pipeline on an object record whose message lookup
comes back empty: the `unwrap` panics. -/
theorem transform_missing_message (cfg : LogTransformer) (ext : Ext)
    (obj : List (String × JValue)) (line : String)
    (hm : getField obj cfg.message_field = none) :
    transformAndPrint cfg ext (.ok (.obj obj)) line = .fatal unwrapMsg := by
  simp only [transformAndPrint, JValue.asObject, hm]

/-- Unfolding of the pipeline on an object record that is stopped by the
level filter. -/
theorem transform_filtered (cfg : LogTransformer) (ext : Ext)
    (obj : List (String × JValue)) (line : String) (mv lv : JValue)
    (hm : getField obj cfg.message_field = some mv)
    (hl : getField obj cfg.level_field = some lv)
    (hne : cfg.filter_levels ≠ [])
    (hnc : cfg.filter_levels.contains (lv.asStr.getD "???") = false) :
    transformAndPrint cfg ext (.ok (.obj obj)) line = .dropped := by
  simp only [transformAndPrint, JValue.asObject, hm, hl]
  rw [if_pos ⟨hne, hnc⟩]

/-- Unfolding of the pipeline on an object record that passes extraction
and the level filter, up to the extra-field block. -/
theorem transform_reaches (cfg : LogTransformer) (ext : Ext)
    (obj : List (String × JValue)) (line : String) (mv lv tv : JValue)
    (hm : getField obj cfg.message_field = some mv)
    (hl : getField obj cfg.level_field = some lv)
    (hpass : cfg.filter_levels = [] ∨
      cfg.filter_levels.contains (lv.asStr.getD "???") = true)
    (ht : getField obj cfg.timestamp_field = some tv) :
    transformAndPrint cfg ext (.ok (.obj obj)) line =
      if cfg.hide_extra_fields then
        .rendered (headerSegs cfg ext tv.asF64 (lv.asStr.getD "???")
          (mv.asStr.getD "???") ++ tailSegs cfg)
      else
        gateAndRender cfg ext (.obj obj)
          (headerSegs cfg ext tv.asF64 (lv.asStr.getD "???")
            (mv.asStr.getD "???")) := by
  have hcond : ¬(cfg.filter_levels ≠ [] ∧
      cfg.filter_levels.contains (lv.asStr.getD "???") = false) := by
    rcases hpass with h | h
    · exact fun hh => hh.1 h
    · intro hh
      rw [h] at hh
      exact absurd hh.2 (by simp)
  simp only [transformAndPrint, JValue.asObject, hm, hl, ht]
  rw [if_neg hcond]

/-- A list is a suffix of anything appended in front of it (Boolean
version, for the trailing-segments claim). -/
theorem isSuffixOf_self_append (l₁ l₂ : List (TColor × String)) :
    l₁.isSuffixOf (l₂ ++ l₁) = true := by
  unfold List.isSuffixOf
  simp [ List.isPrefixOf_iff_prefix, List.prefix_append]

/-- C1: the specification claims field extraction never fails — an absent
message or level field falls back to the text ??? and an absent or
non-numeric timestamp yields no timestamp, with no error in any case.  The
code instead calls `Option::unwrap` on the raw lookup, so a record missing
the message field panics (first conjunct, the empty object under the
default configuration).  The second conjunct shows the half that does hold:
fields that are present but mistyped degrade gracefully — a non-string
message renders as ??? and a non-numeric timestamp yields no timestamp
segment. -/
theorem c1_extraction_panics_on_missing_field :
    transformAndPrint cfgDefault extK (.ok (.obj [])) "" = .fatal unwrapMsg ∧
    transformAndPrint cfgDefault extK
      (.ok (.obj [("msg", .num ⟨"7"⟩), ("level", .str "info"),
        ("ts", .str "t")])) "" =
      .rendered [(.blue, "[info] "), (.black, "???"), (.black, "\n")] := by
  exact ⟨rfl, by decide⟩

/-- C5: if filter_levels is non-empty and does not contain the extracted
level (exact string equality), the record is dropped with no output at all,
for every instantiation of the external walker and whatever queries are
configured — so neither query evaluation nor rendering can be observed; if
filter_levels is empty the run is identical to one whose filter set
contains the extracted level, i.e. every level passes. -/
theorem c5_level_filter (cfg : LogTransformer) (ext : Ext)
    (obj : List (String × JValue)) (line : String) (mv lv : JValue)
    (hm : getField obj cfg.message_field = some mv)
    (hl : getField obj cfg.level_field = some lv) :
    (cfg.filter_levels ≠ [] →
      cfg.filter_levels.contains (lv.asStr.getD "???") = false →
      transformAndPrint cfg ext (.ok (.obj obj)) line = .dropped) ∧
    (cfg.filter_levels = [] →
      transformAndPrint cfg ext (.ok (.obj obj)) line =
        transformAndPrint
          { cfg with filter_levels := [lv.asStr.getD "???"] } ext
          (.ok (.obj obj)) line) := by
  constructor
  · exact fun hne hnc =>
      transform_filtered cfg ext obj line mv lv hm hl hne hnc
  · intro hempty
    have h1 : ¬(cfg.filter_levels ≠ [] ∧
        cfg.filter_levels.contains (lv.asStr.getD "???") = false) := by
      rw [hempty]
      simp
    have h2 : ¬(([lv.asStr.getD "???"] : List String) ≠ [] ∧
        ([lv.asStr.getD "???"] : List String).contains
          (lv.asStr.getD "???") = false) := by
      simp
    simp only [transformAndPrint, JValue.asObject, hm, hl]
    rw [if_neg h1, if_neg h2]
    cases getField obj cfg.timestamp_field <;> rfl

/-- C5 witness: an allow-set of error only drops an info record; an empty
allow-set behaves like the allow-set containing the level. -/
theorem c5_witness :
    transformAndPrint { cfgDefault with filter_levels := ["error"] } extK
      (.ok recBasic) "" = .dropped ∧
    transformAndPrint cfgDefault extK (.ok recBasic) "" =
      transformAndPrint { cfgDefault with filter_levels := ["info"] } extK
        (.ok recBasic) "" :=
  ⟨(c5_level_filter { cfgDefault with filter_levels := ["error"] } extK
      [("msg", .str "m"), ("level", .str "info"), ("ts", .num ⟨"1"⟩)] ""
      (.str "m") (.str "info") rfl rfl).1 (by decide) (by decide),
   (c5_level_filter cfgDefault extK
      [("msg", .str "m"), ("level", .str "info"), ("ts", .num ⟨"1"⟩)] ""
      (.str "m") (.str "info") rfl rfl).2 rfl⟩

/-- C6: an unparsable line and a parsed line whose top-level value is not
an object behave identically: verbatim passthrough when hide_non_json is
false, zero output when it is true, and neither case is an error. -/
theorem c6_non_json_and_non_object (cfg : LogTransformer) (ext : Ext)
    (line : String) (v : JValue) (hv : v.asObject = none) :
    transformAndPrint cfg ext (.error ()) line =
      (if cfg.hide_non_json then .dropped else .passthrough line) ∧
    transformAndPrint cfg ext (.ok v) line =
      (if cfg.hide_non_json then .dropped else .passthrough line) := by
  constructor
  · rfl
  · simp only [transformAndPrint, hv]

/-- C6 witness: under the default configuration both cases echo the line. -/
theorem c6_witness :
    transformAndPrint cfgDefault extK (.error ()) "plain text log" =
      .passthrough "plain text log" ∧
    transformAndPrint cfgDefault extK (.ok (.arr [])) "plain text log" =
      .passthrough "plain text log" :=
  c6_non_json_and_non_object cfgDefault extK "plain text log" (.arr []) rfl

/-- C8 counterexample: the code trims the level before the case-insensitive
match, so a level with leading whitespace is colored red, while the
mapping of the claim (case-insensitive only) sends any string that is not
literally one of the listed words — including one with leading
whitespace — to the neutral color. -/
theorem c8_counterexample :
    levelColor " error" = TColor.red ∧
    specLevelColor " error" = TColor.black ∧
    transformAndPrint cfgDefault extK
      (.ok (.obj [("msg", .str "m"), ("level", .str " error"),
        ("ts", .num ⟨"1"⟩)])) "" =
      .rendered [(.magenta, "[1]"), (.red, "[ error] "), (.black, "m"),
        (.black, "\n")] := by
  exact ⟨by decide, by decide, by decide⟩

/-- C8 (amended): the level color is the fixed case-insensitive mapping of
the claim applied to the whitespace-trimmed extracted level string; the
mapping itself (word classes and default) is exactly as claimed, and
unrecognized levels fall to the neutral default with no error. -/
theorem c8_level_color_is_trimmed_spec_map :
    ∀ level : String, levelColor level = specLevelColor (rustTrim level) :=
  fun _ => rfl

/-- C2 counterexample: the claim says a malformed gate query aborts the
whole process; the code drops the record silently instead — any gate
evaluation failure, including a syntax error, takes the `Err(_) => return
Ok(())` branch before the select query is even consulted. -/
theorem c2_counterexample :
    transformAndPrint { cfgDefault with jql_filter := some "bad selector" }
      extSyntaxErr (.ok recBasic) "" = .dropped := by decide

/-- C2 (amended): only the select query turns a malformed-syntax evaluation
failure into a process abort: when the record reaches the select query and
the walker fails with an error that is neither the empty-match marker nor
the structurally-absent marker, the outcome is the panic carrying that
error text; a gate query whose evaluation fails (for any reason) drops the
record silently instead. -/
theorem c2_select_aborts_gate_drops (cfg : LogTransformer) (ext : Ext)
    (obj : List (String × JValue)) (line q why : String) (mv lv tv : JValue)
    (hm : getField obj cfg.message_field = some mv)
    (hl : getField obj cfg.level_field = some lv)
    (hpass : cfg.filter_levels = [] ∨
      cfg.filter_levels.contains (lv.asStr.getD "???") = true)
    (ht : getField obj cfg.timestamp_field = some tv)
    (hhide : cfg.hide_extra_fields = false)
    (hwalk : ext.walker (.obj obj) q = .error why) :
    (cfg.jql_filter = none → cfg.jql = some q → why ≠ "Empty group" →
      containsSubstring why "not found on the parent element" = false →
      transformAndPrint cfg ext (.ok (.obj obj)) line = .fatal why) ∧
    (cfg.jql_filter = some q →
      transformAndPrint cfg ext (.ok (.obj obj)) line = .dropped) := by
  have hbase := transform_reaches cfg ext obj line mv lv tv hm hl hpass ht
  rw [hhide] at hbase
  simp only [Bool.false_eq_true, if_false] at hbase
  constructor
  · intro hjf hj hne hnc
    rw [hbase]
    simp only [gateAndRender, hjf, afterGate, hj, hwalk]
    rw [if_neg hne, if_neg (by simp [hnc])]
  · intro hjf
    rw [hbase]
    simp only [gateAndRender, hjf, hwalk]

/-- C2 witness: a walker failing with a parse error panics through the
select query and is dropped through the gate query. -/
theorem c2_witness :
    transformAndPrint { cfgDefault with jql := some "bad" } extSyntaxErr
      (.ok recBasic) "" = .fatal "Unable to parse the selector" ∧
    transformAndPrint { cfgDefault with jql_filter := some "bad" }
      extSyntaxErr (.ok recBasic) "" = .dropped :=
  ⟨(c2_select_aborts_gate_drops { cfgDefault with jql := some "bad" }
      extSyntaxErr [("msg", .str "m"), ("level", .str "info"),
      ("ts", .num ⟨"1"⟩)] "" "bad" "Unable to parse the selector"
      (.str "m") (.str "info") (.num ⟨"1"⟩) rfl rfl (Or.inl rfl) rfl rfl
      rfl).1 rfl rfl (by decide) (by decide),
   (c2_select_aborts_gate_drops { cfgDefault with jql_filter := some "bad" }
      extSyntaxErr [("msg", .str "m"), ("level", .str "info"),
      ("ts", .num ⟨"1"⟩)] "" "bad" "Unable to parse the selector"
      (.str "m") (.str "info") (.num ⟨"1"⟩) rfl rfl (Or.inl rfl) rfl rfl
      rfl).2 rfl⟩

/-- C3 counterexample: with hide_extra_fields set the gate query is never
evaluated, so a record whose gate evaluation would yield no match (the
walker here answers every query with the empty-match error) is rendered
rather than dropped — the claim fails as universally stated. -/
theorem c3_counterexample :
    transformAndPrint
      { cfgDefault with hide_extra_fields := true, jql_filter := some "q" }
      extK (.ok recBasic) "" =
      .rendered [(.magenta, "[1]"), (.blue, "[info] "), (.black, "m"),
        (.black, "\n")] := by decide

/-- C3 (amended): provided hide_extra_fields is false and the record
carries the three configured fields (otherwise the unwrap panic of C1
precedes the gate), a gate evaluation yielding no match — any walker
error — drops the record with zero output whatever the record's other
content and whether or not the level filter passes it; and a successful
gate match is not inspected further: the outcome is identical to the run
with no gate configured. -/
theorem c3_gate_drop_or_transparent (cfg : LogTransformer) (ext : Ext)
    (obj : List (String × JValue)) (line q : String) (mv lv tv : JValue)
    (hm : getField obj cfg.message_field = some mv)
    (hl : getField obj cfg.level_field = some lv)
    (ht : getField obj cfg.timestamp_field = some tv)
    (hhide : cfg.hide_extra_fields = false)
    (hgate : cfg.jql_filter = some q) :
    (∀ e, ext.walker (.obj obj) q = .error e →
      transformAndPrint cfg ext (.ok (.obj obj)) line = .dropped) ∧
    (∀ r, ext.walker (.obj obj) q = .ok r →
      transformAndPrint cfg ext (.ok (.obj obj)) line =
        transformAndPrint { cfg with jql_filter := none } ext
          (.ok (.obj obj)) line) := by
  have hsplit : (cfg.filter_levels ≠ [] ∧
      cfg.filter_levels.contains (lv.asStr.getD "???") = false) ∨
      (cfg.filter_levels = [] ∨
        cfg.filter_levels.contains (lv.asStr.getD "???") = true) := by
    rcases Decidable.em (cfg.filter_levels = []) with h | h
    · exact Or.inr (Or.inl h)
    · rcases Bool.eq_false_or_eq_true
        (cfg.filter_levels.contains (lv.asStr.getD "???")) with hc | hc
      · exact Or.inr (Or.inr hc)
      · exact Or.inl ⟨h, hc⟩
  constructor
  · intro e hwalk
    rcases hsplit with hft | hpass
    · exact transform_filtered cfg ext obj line mv lv hm hl hft.1 hft.2
    · have hbase := transform_reaches cfg ext obj line mv lv tv hm hl hpass ht
      rw [hhide] at hbase
      simp only [Bool.false_eq_true, if_false] at hbase
      rw [hbase]
      simp only [gateAndRender, hgate, hwalk]
  · intro r hwalk
    rcases hsplit with hft | hpass
    · rw [transform_filtered cfg ext obj line mv lv hm hl hft.1 hft.2,
        transform_filtered { cfg with jql_filter := none } ext obj line mv lv
          hm hl hft.1 hft.2]
    · have hbase := transform_reaches cfg ext obj line mv lv tv hm hl hpass ht
      have hbase2 := transform_reaches { cfg with jql_filter := none } ext
        obj line mv lv tv hm hl hpass ht
      rw [hhide] at hbase
      simp only [Bool.false_eq_true, if_false] at hbase
      rw [hbase, hbase2]
      simp only [gateAndRender, hgate, hwalk, hhide, Bool.false_eq_true,
        if_false]
      rfl

/-- C4 counterexample: with hide_extra_fields set the select query is never
evaluated, so a record whose select evaluation would report an empty match
(the walker answers every query with the empty-match error) is rendered
rather than dropped — the claim fails as universally stated. -/
theorem c4_counterexample :
    transformAndPrint
      { cfgDefault with hide_extra_fields := true, jql := some "q" }
      extK (.ok recBasic) "" =
      .rendered [(.magenta, "[1]"), (.blue, "[info] "), (.black, "m"),
        (.black, "\n")] := by decide

/-- C4 (amended): provided hide_extra_fields is false, the record carries
the three configured fields, and its level passes the filter: a select
evaluation reporting structurally-absent or an empty match drops the
record with no output; a successful evaluation returning a JSON object has
that object's pairs replace the record's top-level fields for extra-field
rendering; a successful evaluation returning a non-object value is wrapped
under the single synthetic reserved key and rendered as a one-field
set. -/
theorem c4_select_reshapes (cfg : LogTransformer) (ext : Ext)
    (obj : List (String × JValue)) (line q : String) (mv lv tv : JValue)
    (hm : getField obj cfg.message_field = some mv)
    (hl : getField obj cfg.level_field = some lv)
    (hpass : cfg.filter_levels = [] ∨
      cfg.filter_levels.contains (lv.asStr.getD "???") = true)
    (ht : getField obj cfg.timestamp_field = some tv)
    (hhide : cfg.hide_extra_fields = false)
    (hjf : cfg.jql_filter = none)
    (hj : cfg.jql = some q) :
    (∀ why, ext.walker (.obj obj) q = .error why →
      containsSubstring why "not found on the parent element" = true →
      transformAndPrint cfg ext (.ok (.obj obj)) line = .dropped) ∧
    (ext.walker (.obj obj) q = .error "Empty group" →
      transformAndPrint cfg ext (.ok (.obj obj)) line = .dropped) ∧
    (∀ fs, ext.walker (.obj obj) q = .ok (.obj fs) →
      transformAndPrint cfg ext (.ok (.obj obj)) line =
        .rendered (headerSegs cfg ext tv.asF64 (lv.asStr.getD "???")
          (mv.asStr.getD "???") ++ extraSegs cfg ext fs ++ tailSegs cfg)) ∧
    (∀ qr, ext.walker (.obj obj) q = .ok qr → qr.asObject = none →
      transformAndPrint cfg ext (.ok (.obj obj)) line =
        .rendered (headerSegs cfg ext tv.asF64 (lv.asStr.getD "???")
          (mv.asStr.getD "???") ++
          extraSegs cfg ext [("_jlf_inner", qr)] ++ tailSegs cfg)) := by
  have hbase := transform_reaches cfg ext obj line mv lv tv hm hl hpass ht
  rw [hhide] at hbase
  simp only [Bool.false_eq_true, if_false] at hbase
  refine ⟨?_, ?_, ?_, ?_⟩
  · intro why hwalk hcontains
    rw [hbase]
    simp only [gateAndRender, hjf, afterGate, hj, hwalk]
    by_cases he : why = "Empty group"
    · rw [if_pos he]
    · rw [if_neg he, if_pos hcontains]
  · intro hwalk
    rw [hbase]
    simp only [gateAndRender, hjf, afterGate, hj, hwalk]
    simp
  · intro fs hwalk
    rw [hbase]
    simp only [gateAndRender, hjf, afterGate, hj, hwalk, JValue.asObject]
  · intro qr hwalk hqr
    rw [hbase]
    simp only [gateAndRender, hjf, afterGate, hj, hwalk]
    cases qr <;> simp_all [JValue.asObject]

/-- C4 witness: a select query returning the object containing only the
pair (a, null) renders exactly that one extra field in place of the
record's own fields, and a select query returning a bare string renders it
wrapped under the synthetic key. -/
theorem c4_witness :
    transformAndPrint { cfgDefault with jql := some "sel" }
      { extK with walker := fun _ _ => .ok (.obj [("a", .null)]) }
      (.ok recBasic) "" =
      .rendered [(.magenta, "[1]"), (.blue, "[info] "), (.black, "m"),
        (.black, " | "), (.green, "a"), (.black, "="), (.black, "NULL"),
        (.black, "\n")] ∧
    transformAndPrint { cfgDefault with jql := some "sel" }
      { extK with walker := fun _ _ => .ok (.str "w") }
      (.ok recBasic) "" =
      .rendered [(.magenta, "[1]"), (.blue, "[info] "), (.black, "m"),
        (.black, " | "), (.green, "_jlf_inner"), (.black, "="),
        (.black, "w"), (.black, "\n")] :=
  ⟨(c4_select_reshapes { cfgDefault with jql := some "sel" }
      { extK with walker := fun _ _ => .ok (.obj [("a", .null)]) }
      [("msg", .str "m"), ("level", .str "info"), ("ts", .num ⟨"1"⟩)]
      "" "sel" (.str "m") (.str "info") (.num ⟨"1"⟩) rfl rfl (Or.inl rfl)
      rfl rfl rfl rfl).2.2.1 [("a", .null)] rfl,
   (c4_select_reshapes { cfgDefault with jql := some "sel" }
      { extK with walker := fun _ _ => .ok (.str "w") }
      [("msg", .str "m"), ("level", .str "info"), ("ts", .num ⟨"1"⟩)]
      "" "sel" (.str "m") (.str "info") (.num ⟨"1"⟩) rfl rfl (Or.inl rfl)
      rfl rfl rfl rfl).2.2.2 (.str "w") rfl rfl⟩

/-- C3 witness: a gate query that fails on the record drops it; a gate
query that succeeds renders the record exactly as with no gate at all. -/
theorem c3_witness :
    transformAndPrint { cfgDefault with jql_filter := some "g" }
      extSyntaxErr (.ok recBasic) "" = .dropped ∧
    transformAndPrint { cfgDefault with jql_filter := some "g" }
      { extK with walker := fun _ _ => .ok .null } (.ok recBasic) "" =
      transformAndPrint
        { { cfgDefault with jql_filter := some "g" } with jql_filter := none }
        { extK with walker := fun _ _ => .ok .null } (.ok recBasic) "" :=
  ⟨(c3_gate_drop_or_transparent { cfgDefault with jql_filter := some "g" }
      extSyntaxErr [("msg", .str "m"), ("level", .str "info"),
      ("ts", .num ⟨"1"⟩)] "" "g" (.str "m") (.str "info") (.num ⟨"1"⟩)
      rfl rfl rfl rfl rfl).1 "Unable to parse the selector" rfl,
   (c3_gate_drop_or_transparent { cfgDefault with jql_filter := some "g" }
      { extK with walker := fun _ _ => .ok .null }
      [("msg", .str "m"), ("level", .str "info"), ("ts", .num ⟨"1"⟩)] ""
      "g" (.str "m") (.str "info") (.num ⟨"1"⟩)
      rfl rfl rfl rfl rfl).2 .null rfl⟩

/-- C7: with hide_extra_fields set, neither query is ever evaluated: the
outcome of every line is unchanged when the two queries and the external
walker are replaced arbitrarily, so no record can be dropped or aborted
because of a query; and a record that passes extraction and the level
filter is rendered with only its timestamp, level and message segments
(plus the trailing block), never with extra fields. -/
theorem c7_hide_extra_fields_skips_queries (cfg : LogTransformer) (ext : Ext)
    (w2 : JValue → String → Except String JValue) (q1 q2 : Option String)
    (parsed : Except Unit JValue) (line : String)
    (obj : List (String × JValue)) (mv lv tv : JValue)
    (hhide : cfg.hide_extra_fields = true)
    (hm : getField obj cfg.message_field = some mv)
    (hl : getField obj cfg.level_field = some lv)
    (hpass : cfg.filter_levels = [] ∨
      cfg.filter_levels.contains (lv.asStr.getD "???") = true)
    (ht : getField obj cfg.timestamp_field = some tv) :
    transformAndPrint { cfg with jql := q1, jql_filter := q2 }
      { ext with walker := w2 } parsed line =
      transformAndPrint cfg ext parsed line ∧
    transformAndPrint cfg ext (.ok (.obj obj)) line =
      .rendered (headerSegs cfg ext tv.asF64 (lv.asStr.getD "???")
        (mv.asStr.getD "???") ++ tailSegs cfg) := by
  constructor
  · cases parsed with
    | error e => rfl
    | ok val =>
      cases val with
      | null => rfl
      | bool b => rfl
      | num n => rfl
      | str s => rfl
      | arr a => rfl
      | obj fields =>
        simp only [transformAndPrint, JValue.asObject]
        cases getField fields cfg.message_field with
        | none => rfl
        | some mv2 =>
          cases getField fields cfg.level_field with
          | none => rfl
          | some lv2 =>
            dsimp only
            by_cases hft : cfg.filter_levels ≠ [] ∧
                cfg.filter_levels.contains (lv2.asStr.getD "???") = false
            · rw [if_pos hft, if_pos hft]
            · rw [if_neg hft, if_neg hft]
              cases getField fields cfg.timestamp_field with
              | none => rfl
              | some tv2 =>
                rw [hhide]
                rfl
  · have hbase := transform_reaches cfg ext obj line mv lv tv hm hl hpass ht
    rw [hhide] at hbase
    rw [if_pos rfl] at hbase
    exact hbase

/-- C7 witness: with hide_extra_fields set, swapping in a gate query, a
select query and a walker that rejects everything changes nothing, and the
record renders with only its three header segments plus the newline. -/
theorem c7_witness :
    transformAndPrint
      { { cfgDefault with hide_extra_fields := true } with
          jql := some "a", jql_filter := some "b" }
      { extK with walker := fun _ _ => .error "boom" } (.ok recBasic) "" =
      transformAndPrint { cfgDefault with hide_extra_fields := true } extK
        (.ok recBasic) "" ∧
    transformAndPrint { cfgDefault with hide_extra_fields := true } extK
      (.ok recBasic) "" =
      .rendered [(.magenta, "[1]"), (.blue, "[info] "), (.black, "m"),
        (.black, "\n")] :=
  c7_hide_extra_fields_skips_queries
    { cfgDefault with hide_extra_fields := true } extK
    (fun _ _ => .error "boom") (some "a") (some "b") (.ok recBasic) ""
    [("msg", .str "m"), ("level", .str "info"), ("ts", .num ⟨"1"⟩)]
    (.str "m") (.str "info") (.num ⟨"1"⟩) rfl rfl rfl (Or.inl rfl) rfl

/-- The code's value formatting agrees with the table transcribed from the
specification. -/
theorem formatValue_eq_spec (ext : Ext) (v : JValue) :
    formatValue ext v = specFormatValue ext v := by
  cases v with
  | null => rfl
  | bool b => cases b <;> rfl
  | num n => rfl
  | str s => rfl
  | arr a => rfl
  | obj o => rfl

/-- The code's Boolean-negation filter agrees with the specification's
key-not-in-the-excluded-set filter. -/
theorem filter_not_contains_eq (l : List (String × JValue))
    (excl : List String) :
    l.filter (fun kv => !excl.contains kv.1) =
      l.filter (fun kv => excl.contains kv.1 = false) := by
  apply List.filter_congr
  intro kv _
  cases excl.contains kv.1 <;> simp

/-- C9: for a record that renders with no query configured, the extra-field
block renders exactly those of the record's pairs whose keys are not in
excluded_fields, in order, each value formatted by the claim's table
(specFormatValue); with hide_extra_fields set, no extra field is rendered;
and the three configured field names are always members of excluded_fields
for every raw configuration. -/
theorem c9_extra_field_selection_and_formatting (cfg : LogTransformer)
    (ext : Ext) (obj : List (String × JValue)) (line : String)
    (mv lv tv : JValue) (c : Config)
    (hm : getField obj cfg.message_field = some mv)
    (hl : getField obj cfg.level_field = some lv)
    (hpass : cfg.filter_levels = [] ∨
      cfg.filter_levels.contains (lv.asStr.getD "???") = true)
    (ht : getField obj cfg.timestamp_field = some tv)
    (hhide : cfg.hide_extra_fields = false)
    (hjf : cfg.jql_filter = none) (hj : cfg.jql = none) :
    transformAndPrint cfg ext (.ok (.obj obj)) line =
      .rendered (headerSegs cfg ext tv.asF64 (lv.asStr.getD "???")
        (mv.asStr.getD "???") ++
        ((obj.filter
            (fun kv => cfg.excluded_fields.contains kv.1 = false)).map
          (fun kv => (kv.1, specFormatValue ext kv.2))).flatMap
          (fun kv => fieldSegs cfg kv.1 kv.2) ++ tailSegs cfg) ∧
    transformAndPrint { cfg with hide_extra_fields := true } ext
      (.ok (.obj obj)) line =
      .rendered (headerSegs cfg ext tv.asF64 (lv.asStr.getD "???")
        (mv.asStr.getD "???") ++ tailSegs cfg) ∧
    ((LogTransformer.new c).excluded_fields.contains c.message_field_name =
        true ∧
      (LogTransformer.new c).excluded_fields.contains c.level_field_name =
        true ∧
      (LogTransformer.new c).excluded_fields.contains
        c.timestamp_field_name = true) := by
  refine ⟨?_, ?_, ?_, ?_, ?_⟩
  · have hbase := transform_reaches cfg ext obj line mv lv tv hm hl hpass ht
    rw [hhide] at hbase
    simp only [Bool.false_eq_true, if_false] at hbase
    rw [hbase]
    simp only [gateAndRender, hjf, afterGate, hj, JValue.asObject]
    have hx : extraSegs cfg ext obj =
        ((obj.filter
            (fun kv => cfg.excluded_fields.contains kv.1 = false)).map
          (fun kv => (kv.1, specFormatValue ext kv.2))).flatMap
          (fun kv => fieldSegs cfg kv.1 kv.2) := by
      unfold extraSegs extraFields
      rw [filter_not_contains_eq]
      have hmap : (fun kv : String × JValue =>
            (kv.1, formatValue ext kv.2)) =
          (fun kv : String × JValue => (kv.1, specFormatValue ext kv.2)) :=
        funext fun kv => by rw [formatValue_eq_spec]
      rw [hmap]
    rw [hx]
  · have hbase := transform_reaches { cfg with hide_extra_fields := true }
      ext obj line mv lv tv hm hl hpass ht
    rw [if_pos rfl] at hbase
    exact hbase
  · simp [LogTransformer.new]
  · simp [LogTransformer.new]
  · simp [LogTransformer.new]

/-- C9 witness: under the default configuration the record with two extra
fields renders exactly those two, in order, with a number formatted as its
decimal text and a string verbatim; with hide_extra_fields they vanish;
and msg, level and ts are in the default excluded set. -/
theorem c9_witness :
    transformAndPrint cfgDefault extK
      (.ok (.obj [("msg", .str "hi"), ("level", .str "info"),
        ("ts", .num ⟨"1000"⟩), ("a", .num ⟨"1"⟩), ("b", .str "x")])) "" =
      .rendered [(.magenta, "[1000]"), (.blue, "[info] "), (.black, "hi"),
        (.black, " | "), (.green, "a"), (.black, "="), (.black, "1"),
        (.black, " | "), (.green, "b"), (.black, "="), (.black, "x"),
        (.black, "\n")] ∧
    transformAndPrint { cfgDefault with hide_extra_fields := true } extK
      (.ok (.obj [("msg", .str "hi"), ("level", .str "info"),
        ("ts", .num ⟨"1000"⟩), ("a", .num ⟨"1"⟩), ("b", .str "x")])) "" =
      .rendered [(.magenta, "[1000]"), (.blue, "[info] "), (.black, "hi"),
        (.black, "\n")] ∧
    cfgDefault.excluded_fields.contains "msg" = true ∧
    cfgDefault.excluded_fields.contains "level" = true ∧
    cfgDefault.excluded_fields.contains "ts" = true := by
  have h := c9_extra_field_selection_and_formatting cfgDefault extK
    [("msg", .str "hi"), ("level", .str "info"), ("ts", .num ⟨"1000"⟩),
     ("a", .num ⟨"1"⟩), ("b", .str "x")] ""
    (.str "hi") (.str "info") (.num ⟨"1000"⟩) Config.defaults
    rfl rfl (Or.inl rfl) rfl rfl rfl rfl
  exact ⟨h.1, h.2.1, h.2.2.1, h.2.2.2.1, h.2.2.2.2⟩

/-- Every rendered outcome of the select-and-render phase ends with the
tail block. -/
theorem afterGate_rendered_tail (cfg : LogTransformer) (ext : Ext)
    (val : JValue) (head segs : List (TColor × String))
    (h : afterGate cfg ext val head = .rendered segs) :
    (tailSegs cfg).isSuffixOf segs = true := by
  cases hj : cfg.jql with
  | none =>
    simp only [afterGate, hj] at h
    cases hv : val.asObject with
    | none => simp [hv] at h
    | some fs =>
      rw [hv] at h
      dsimp only at h
      injection h with h2
      rw [← h2]
      exact isSuffixOf_self_append _ _
  | some q =>
    simp only [afterGate, hj] at h
    cases hw : ext.walker val q with
    | error why =>
      rw [hw] at h
      dsimp only at h
      by_cases he : why = "Empty group"
      · rw [if_pos he] at h
        simp at h
      · rw [if_neg he] at h
        by_cases hc :
          containsSubstring why "not found on the parent element" = true
        · rw [if_pos hc] at h
          simp at h
        · rw [if_neg hc] at h
          simp at h
    | ok qr =>
      rw [hw] at h
      cases qr <;>
        (dsimp only [JValue.asObject] at h
         injection h with h2
         rw [← h2]
         exact isSuffixOf_self_append _ _)

/-- Every rendered outcome of the gate-and-render phase ends with the tail
block. -/
theorem gateAndRender_rendered_tail (cfg : LogTransformer) (ext : Ext)
    (val : JValue) (head segs : List (TColor × String))
    (h : gateAndRender cfg ext val head = .rendered segs) :
    (tailSegs cfg).isSuffixOf segs = true := by
  cases hjf : cfg.jql_filter with
  | none =>
    simp only [gateAndRender, hjf] at h
    exact afterGate_rendered_tail cfg ext val head segs h
  | some q =>
    simp only [gateAndRender, hjf] at h
    cases hw : ext.walker val q with
    | error e =>
      rw [hw] at h
      simp at h
    | ok r =>
      rw [hw] at h
      exact afterGate_rendered_tail cfg ext val head segs h

/-- C10: every rendered record ends with the tail block — one terminating
newline followed by spacing.toNat blank lines, which is exactly `spacing`
blank lines for every non-negative spacing — while a passthrough line (a
non-object or unparsable input echoed verbatim) is emitted alone for every
spacing value, with no blank lines attached. -/
theorem c10_trailing_newline_and_spacing (cfg : LogTransformer) (ext : Ext)
    (parsed : Except Unit JValue) (line line2 : String)
    (segs : List (TColor × String)) (v : JValue) (s : Int)
    (h : transformAndPrint cfg ext parsed line = .rendered segs)
    (hv : v.asObject = none)
    (hnj : cfg.hide_non_json = false) :
    (tailSegs cfg).isSuffixOf segs = true ∧
    tailSegs cfg =
      (TColor.black, "\n") ::
        List.replicate cfg.spacing.toNat (TColor.black, "\n") ∧
    transformAndPrint { cfg with spacing := s } ext (.ok v) line2 =
      .passthrough line2 ∧
    transformAndPrint { cfg with spacing := s } ext (.error ()) line2 =
      .passthrough line2 := by
  refine ⟨?_, rfl, ?_, ?_⟩
  · cases parsed with
    | error e =>
      simp only [transformAndPrint] at h
      split at h <;> simp_all
    | ok val =>
      cases val with
      | null =>
        simp only [transformAndPrint, JValue.asObject] at h
        split at h <;> simp_all
      | bool b =>
        simp only [transformAndPrint, JValue.asObject] at h
        split at h <;> simp_all
      | num n =>
        simp only [transformAndPrint, JValue.asObject] at h
        split at h <;> simp_all
      | str t =>
        simp only [transformAndPrint, JValue.asObject] at h
        split at h <;> simp_all
      | arr a =>
        simp only [transformAndPrint, JValue.asObject] at h
        split at h <;> simp_all
      | obj fields =>
        simp only [transformAndPrint, JValue.asObject] at h
        cases hm2 : getField fields cfg.message_field with
        | none => simp [hm2] at h
        | some mv2 =>
          rw [hm2] at h
          dsimp only at h
          cases hl2 : getField fields cfg.level_field with
          | none => simp [hl2] at h
          | some lv2 =>
            rw [hl2] at h
            dsimp only at h
            split at h
            · simp at h
            · cases ht2 : getField fields cfg.timestamp_field with
              | none => simp [ht2] at h
              | some tv2 =>
                rw [ht2] at h
                dsimp only at h
                split at h
                · injection h with h2
                  rw [← h2]
                  exact isSuffixOf_self_append _ _
                · exact gateAndRender_rendered_tail cfg ext (.obj fields)
                    _ segs h
  · simp only [transformAndPrint, hv, hnj, Bool.false_eq_true, if_false]
  · simp only [transformAndPrint, hnj, Bool.false_eq_true, if_false]

/-- C10 witness: spacing two appends exactly two blank lines after the
terminating newline of a rendered record, and a passthrough line is echoed
bare under the same configuration. -/
theorem c10_witness :
    (tailSegs { cfgDefault with spacing := 2 }).isSuffixOf
      [(TColor.magenta, "[1]"), (TColor.blue, "[info] "), (TColor.black, "m"),
       (TColor.black, "\n"), (TColor.black, "\n"), (TColor.black, "\n")] =
      true ∧
    tailSegs { cfgDefault with spacing := 2 } =
      (TColor.black, "\n") ::
        List.replicate (Int.toNat 2) (TColor.black, "\n") ∧
    transformAndPrint
      { { cfgDefault with spacing := 2 } with spacing := 7 } extK
      (.ok (.arr [])) "plain" = .passthrough "plain" ∧
    transformAndPrint
      { { cfgDefault with spacing := 2 } with spacing := 7 } extK
      (.error ()) "plain" = .passthrough "plain" :=
  c10_trailing_newline_and_spacing { cfgDefault with spacing := 2 } extK
    (.ok recBasic) "" "plain"
    [(TColor.magenta, "[1]"), (TColor.blue, "[info] "), (TColor.black, "m"),
     (TColor.black, "\n"), (TColor.black, "\n"), (TColor.black, "\n")]
    (.arr []) 7 (by decide) rfl rfl

end JLF
